import Mathlib

/-!
Verification of the a2afinaldemo inter-agent orchestration pipeline
(`src/a2a_utils.py`, `src/a2a_servers.py`, `src/orchestrator.py` and the
per-role agent work functions).  Python JSON-like values are embedded as the

inductive `JVal`; numbers are modelled exactly as rationals (the source uses
Python floats; `math.inf` gets its own constructor); Python dicts are
association lists looked up by first match, which coincides with dict
semantics because dict construction keeps keys unique.
-/

/-- JSON-like values carried in structured payloads.  `infty` models the
Python float `math.inf` produced by `_compute_metrics`. -/
inductive JVal where
  | str (s : String)
  | num (q : ℚ)
  | infty
  | arr (xs : List JVal)
  | obj (fields : List (String × JVal))

mutual

/-- Structural equality on `JVal`, matching Python `==` on parsed JSON data. -/
def jbeq : JVal → JVal → Bool
  | .str a, .str b => a == b
  | .num a, .num b => a == b
  | .infty, .infty => true
  | .arr xs, .arr ys => jbeqL xs ys
  | .obj xs, .obj ys => jbeqO xs ys
  | _, _ => false

/-- Elementwise `jbeq` on lists. -/
def jbeqL : List JVal → List JVal → Bool
  | [], [] => true
  | x :: xs, y :: ys => jbeq x y && jbeqL xs ys
  | _, _ => false

/-- Elementwise `jbeq` on keyed fields. -/
def jbeqO : List (String × JVal) → List (String × JVal) → Bool
  | [], [] => true
  | (k, v) :: xs, (l, w) :: ys => k == l && jbeq v w && jbeqO xs ys
  | _, _ => false

end

mutual

def jbeq_eq : ∀ a b, jbeq a b = true ↔ a = b
  | .str _, .str _ => by simp [jbeq]
  | .num _, .num _ => by simp [jbeq]
  | .infty, .infty => by simp [jbeq]
  | .arr xs, .arr ys => by simp [jbeq, jbeqL_eq xs ys]
  | .obj xs, .obj ys => by simp [jbeq, jbeqO_eq xs ys]
  | .str _, .num _ => by simp [jbeq]
  | .str _, .infty => by simp [jbeq]
  | .str _, .arr _ => by simp [jbeq]
  | .str _, .obj _ => by simp [jbeq]
  | .num _, .str _ => by simp [jbeq]
  | .num _, .infty => by simp [jbeq]
  | .num _, .arr _ => by simp [jbeq]
  | .num _, .obj _ => by simp [jbeq]
  | .infty, .str _ => by simp [jbeq]
  | .infty, .num _ => by simp [jbeq]
  | .infty, .arr _ => by simp [jbeq]
  | .infty, .obj _ => by simp [jbeq]
  | .arr _, .str _ => by simp [jbeq]
  | .arr _, .num _ => by simp [jbeq]
  | .arr _, .infty => by simp [jbeq]
  | .arr _, .obj _ => by simp [jbeq]
  | .obj _, .str _ => by simp [jbeq]
  | .obj _, .num _ => by simp [jbeq]
  | .obj _, .infty => by simp [jbeq]
  | .obj _, .arr _ => by simp [jbeq]

def jbeqL_eq : ∀ xs ys, jbeqL xs ys = true ↔ xs = ys
  | [], [] => by simp [jbeqL]
  | _ :: xs, _ :: ys => by simp [jbeqL, jbeq_eq, jbeqL_eq xs ys]
  | [], _ :: _ => by simp [jbeqL]
  | _ :: _, [] => by simp [jbeqL]

def jbeqO_eq : ∀ xs ys, jbeqO xs ys = true ↔ xs = ys
  | [], [] => by simp [jbeqO]
  | (_, v) :: xs, (_, w) :: ys => by
      simp [jbeqO, jbeq_eq v w, jbeqO_eq xs ys]
  | [], _ :: _ => by simp [jbeqO]
  | _ :: _, [] => by simp [jbeqO]

end

instance : DecidableEq JVal := fun a b => decidable_of_iff _ (jbeq_eq a b)

/-- Python dict lookup `payload.get(k)` on a structured payload: the first
field with the given key, if any. -/
def jget (fields : List (String × JVal)) (k : String) : Option JVal :=
  (fields.find? (fun p => p.1 == k)).map (·.2)

/-- Python truthiness of a JSON-like value (`if records: ...`). -/
def jtruthy : JVal → Bool
  | .str s => s ≠ ""
  | .num q => q ≠ 0
  | .infty => true
  | .arr xs => xs ≠ []
  | .obj fs => fs ≠ []

/-- Message role, as in `a2a.types.Role`: the requester sends `user`
messages and the responding agent sends `agent` messages. -/
inductive ARole where
  | user
  | agent
  deriving DecidableEq

/-- One part of a message: free text or a structured-data mapping
(`TextPart` / `DataPart` of the a2a envelope). -/
inductive APart where
  | text (text : String)
  | data (data : List (String × JVal))
  deriving DecidableEq

/-- A message envelope: unique id, role, ordered parts
(`a2a.types.Message`). -/
structure AMessage where
  message_id : String
  role : ARole
  parts : List APart
  deriving DecidableEq

/-- From `a2a_utils.create_text_message_with_data`: one text part followed by
an optional structured-data part.  The fresh `uuid4` id of the source is
modelled as the explicit `message_id` argument. -/
def create_text_message_with_data (message_id : String) (content : String)
    (data : Option (List (String × JVal)) := none) (role : ARole := .user) : AMessage :=
  { message_id := message_id
    role := role
    parts := [APart.text content] ++ (match data with
      | some d => [APart.data d]
      | none => []) }

/-- From `a2a_utils.create_agent_message`: agent-role response with a text
part when the text is non-empty and an optional structured-data part. -/
def create_agent_message (message_id : String) (text : String)
    (data : Option (List (String × JVal)) := none) : AMessage :=
  { message_id := message_id
    role := .agent
    parts := (if text ≠ "" then [APart.text text] else []) ++ (match data with
      | some d => [APart.data d]
      | none => []) }

/-- From `a2a_utils.extract_text_from_message`: concatenate the text parts
in order, joined with a newline. -/
def extract_text_from_message (m : AMessage) : String :=
  String.intercalate "\n" (m.parts.filterMap fun p =>
    match p with
    | .text t => some t
    | .data _ => none)

/-- From `a2a_utils.get_data_part`: the first structured-data part, if any. -/
def get_data_part (m : AMessage) : Option (List (String × JVal)) :=
  m.parts.findSome? fun p =>
    match p with
    | .data d => some d
    | .text _ => none

/-- Modelled from the spec: the wire name of a role in the envelope wire
shape `{ message_id, role, parts: [...] }` (§6); the serialization itself
lives in the external a2a library, not in this repository's sources. -/
def roleToWire : ARole → String
  | .user => "user"
  | .agent => "agent"

/-- Modelled from the spec: wire shape of one part,
`{type: "text", text} | {type: "data", data: {...}}` (§6). -/
def partToWire : APart → JVal
  | .text t => .obj [("type", .str "text"), ("text", .str t)]
  | .data d => .obj [("type", .str "data"), ("data", .obj d)]

/-- Modelled from the spec: wire shape of a whole envelope,
`{ message_id, role, parts: [...] }` (§6). -/
def messageToWire (m : AMessage) : JVal :=
  .obj [("message_id", .str m.message_id),
        ("role", .str (roleToWire m.role)),
        ("parts", .arr (m.parts.map partToWire))]

/-- Modelled from the spec: parsing a wire role back. -/
def roleFromWire : String → Option ARole
  | "user" => some .user
  | "agent" => some .agent
  | _ => none

/-- Modelled from the spec: parsing one wire part back. -/
def partFromWire (j : JVal) : Option APart :=
  match j with
  | .obj fs =>
    match jget fs "type" with
    | some (.str "text") =>
      match jget fs "text" with
      | some (.str t) => some (.text t)
      | _ => none
    | some (.str "data") =>
      match jget fs "data" with
      | some (.obj d) => some (.data d)
      | _ => none
    | _ => none
  | _ => none

/-- Modelled from the spec: parsing a list of wire parts back, failing if
any single part fails to parse. -/
def partsFromWire : List JVal → Option (List APart)
  | [] => some []
  | j :: js =>
    match partFromWire j, partsFromWire js with
    | some p, some ps => some (p :: ps)
    | _, _ => none

/-- Modelled from the spec: parsing a wire envelope back. -/
def messageFromWire (j : JVal) : Option AMessage :=
  match j with
  | .obj fs =>
    match jget fs "message_id", jget fs "role", jget fs "parts" with
    | some (.str mid), some (.str r), some (.arr ps) =>
      match roleFromWire r, partsFromWire ps with
      | some role, some parts => some { message_id := mid, role := role, parts := parts }
      | _, _ => none
    | _, _, _ => none
  | _ => none

/-- A protocol-level server error as raised by the handlers
(`ServerError(error=InvalidParamsError(message=...))` in `a2a_servers.py`);
every error raised there wraps `InvalidParamsError`. -/
inductive ServerErr where
  | invalidParams (message : String)
  deriving DecidableEq

/-- The RPC methods outside single-shot message send that
`SimpleRequestHandler` rejects. -/
inductive RpcMethod where
  | getTask
  | cancelTask
  | messageSendStream
  | setPushConfig
  | getPushConfig
  | resubscribeTask
  | listPushConfig
  | deletePushConfig
  deriving DecidableEq

/-- The protocol name of each rejected RPC method. -/
def methodName : RpcMethod → String
  | .getTask => "tasks/get"
  | .cancelTask => "tasks/cancel"
  | .messageSendStream => "message/stream"
  | .setPushConfig => "tasks/pushNotificationConfig/set"
  | .getPushConfig => "tasks/pushNotificationConfig/get"
  | .resubscribeTask => "tasks/resubscribe"
  | .listPushConfig => "tasks/pushNotificationConfig/list"
  | .deletePushConfig => "tasks/pushNotificationConfig/delete"

/-- From `a2a_servers._unsupported`: the error raised for unsupported RPC
methods. -/
def unsupportedError (method_name : String) : ServerErr :=
  .invalidParams ("Method '" ++ method_name ++ "' not supported.")

/-- From `a2a_servers.SimpleRequestHandler`: every optional RPC method raises
an unsupported-method error with a literal method name, exactly as each
overridden handler method does in the source. -/
def simpleHandlerDispatch : RpcMethod → Except ServerErr Unit
  | .getTask => .error (unsupportedError "tasks/get")
  | .cancelTask => .error (unsupportedError "tasks/cancel")
  | .messageSendStream => .error (unsupportedError "message/stream")
  | .setPushConfig => .error (unsupportedError "tasks/pushNotificationConfig/set")
  | .getPushConfig => .error (unsupportedError "tasks/pushNotificationConfig/get")
  | .resubscribeTask => .error (unsupportedError "tasks/resubscribe")
  | .listPushConfig => .error (unsupportedError "tasks/pushNotificationConfig/list")
  | .deletePushConfig => .error (unsupportedError "tasks/pushNotificationConfig/delete")

/-- Does an optional payload value hold a Python list
(`isinstance(records, list)`)? -/
def optIsList : Option JVal → Bool
  | some (.arr _) => true
  | _ => false

/-- The arguments with which the Analyst handler invokes the analysis work
function `run_crewai_analysis`; a handler result of `.ok` means the work
function is invoked with exactly these arguments, `.error` means it is never
invoked. -/
structure AnalystInvocation where
  sales_records : JVal
  reader_summary : JVal
  metrics : JVal
  llm_model : JVal
  deriving DecidableEq

/-- From `a2a_servers.AnalystRequestHandler.on_message_send`: extract the
structured payload (defaulting to an empty mapping), reject a non-list
`records` value, then reject a missing/empty `records`, a missing
`summary_text`, or a missing `metrics`, and otherwise hand the validated
inputs to the analysis work function. -/
def analyst_on_message_send (default_model : String) (message : AMessage) :
    Except ServerErr AnalystInvocation :=
  let payload := (get_data_part message).getD []
  let records := jget payload "records"
  if records.isSome && !(optIsList records) then
    .error (.invalidParams "Analyst agent expected 'records' to be a list of dictionaries.")
  else
    let llm_model := (jget payload "model").getD (.str default_model)
    match records, jget payload "summary_text", jget payload "metrics" with
    | some r, some s, some mt =>
      if jtruthy r then
        .ok { sales_records := r, reader_summary := s, metrics := mt, llm_model := llm_model }
      else
        .error (.invalidParams "Analyst agent expects 'records', 'summary_text', and 'metrics'.")
    | _, _, _ =>
      .error (.invalidParams "Analyst agent expects 'records', 'summary_text', and 'metrics'.")

/-- Python truthiness of an optional payload value (`if records: ...` where
absent keys read as `None`, which is falsy). -/
def truthyOpt : Option JVal → Bool
  | some v => jtruthy v
  | none => false

/-- Append a column name if not already present; folding this over records
gives pandas' `DataFrame(list_of_dicts)` column order: union of the record
keys in first-seen order. -/
def insertCol (cols : List String) (k : String) : List String :=
  if k ∈ cols then cols else cols ++ [k]

/-- Columns contributed by one record, appended to an accumulator. -/
def recCols (cols : List String) (r : List (String × JVal)) : List String :=
  r.foldl (fun acc p => insertCol acc p.1) cols

/-- The columns of `pd.DataFrame(records)`: all record field names in
first-seen order. -/
def columnsOf (df : List (List (String × JVal))) : List String :=
  df.foldl recCols []

/-- Does a cell value hold a Python number? -/
def isNumCell : JVal → Bool
  | .num _ => true
  | _ => false

/-- The two exceptions `_compute_metrics` can raise: the `KeyError` of an
absent column, and the `TypeError`/`ValueError` that `df[c].sum()` or its
`float()` conversion raises when a present cell of the summed column is not
a number. -/
inductive MetricsErr where
  | keyErr (col : String)
  | numErr (col : String)
  deriving DecidableEq

/-- One cell of a summed column `c`: a missing cell is a pandas `NaN`, which
`.sum()` skips, so it contributes zero; a present non-numeric cell makes the
sum (or its `float()` conversion) raise, modelled as the error path.
Non-finite floats never occur in these JSON request payloads and are routed
to the error path as well. -/
def numCell (c : String) : Option JVal → Except MetricsErr ℚ
  | some (.num q) => .ok q
  | none => .ok 0
  | some _ => .error (.numErr c)

/-- The fallible column sum `float(df[c].sum())`: cell-by-cell accumulation
that surfaces the non-numeric error. -/
def colSumE (df : List (List (String × JVal))) (c : String) : Except MetricsErr ℚ :=
  match df with
  | [] => .ok 0
  | r :: rest =>
    match numCell c (jget r c) with
    | .error e => .error e
    | .ok v =>
      match colSumE rest c with
      | .error e => .error e
      | .ok s => .ok (v + s)

/-- Numeric view of a validated cell: zero for a missing (`NaN`, skipped)
cell.  Used only where every present cell is numeric — for the ranked group
sums over the Sales column, which `compute_metrics` reaches only after
`colSumE` has validated that column — and `colSumE_ok` ties the fallible sum
to this exact one on such columns. -/
def numOrZero : Option JVal → ℚ
  | some (.num q) => q
  | _ => 0

/-- The exact column sum over a validated numeric column; `colSumE_ok`
relates it to the fallible `colSumE`. -/
def colSum (df : List (List (String × JVal))) (c : String) : ℚ :=
  df.foldl (fun acc r => acc + numOrZero (jget r c)) 0

/-- Add a value to a keyed running sum, keeping first-seen group order. -/
def addToGroup : List (JVal × ℚ) → JVal → ℚ → List (JVal × ℚ)
  | [], k, v => [(k, v)]
  | (g, s) :: rest, k, v =>
    if g = k then (g, s + v) :: rest else (g, s) :: addToGroup rest k v

/-- Per-group sums `df.groupby(key)[metric].sum()`: records lacking the key
fall into pandas' dropped `NaN` group and are skipped. -/
def groupSums (df : List (List (String × JVal))) (key metric : String) : List (JVal × ℚ) :=
  df.foldl
    (fun acc r =>
      match jget r key with
      | some g => addToGroup acc g (numOrZero (jget r metric))
      | none => acc)
    []

/-- Insert into a list sorted by descending sum, after equal sums (a stable
descending insertion; pandas' default `sort_values` kind leaves the relative
order of ties unspecified, and no claim in scope depends on tie order). -/
def insertDesc (p : JVal × ℚ) : List (JVal × ℚ) → List (JVal × ℚ)
  | [] => [p]
  | q :: rest => if q.2 < p.2 then p :: q :: rest else q :: insertDesc p rest

/-- The ranked mapping `df.groupby(key)[metric].sum().sort_values(ascending=False).to_dict()`. -/
def rankSums (df : List (List (String × JVal))) (key metric : String) : List (JVal × ℚ) :=
  (groupSums df key metric).foldr insertDesc []

/-- Round half to even, the semantics of Python's built-in `round`. -/
def roundHalfEven (q : ℚ) : ℤ :=
  if q - ⌊q⌋ < 1 / 2 then ⌊q⌋
  else if 1 / 2 < q - ⌊q⌋ then ⌊q⌋ + 1
  else if 2 ∣ ⌊q⌋ then ⌊q⌋ else ⌊q⌋ + 1

/-- Python's `round(q, nd)`, modelled exactly over rationals. -/
def pyRound (q : ℚ) (nd : ℕ) : ℚ :=
  (roundHalfEven (q * 10 ^ nd) : ℚ) / 10 ^ nd

/-- The metrics mapping built by `langchain_agent._compute_metrics`: note the
totals key `"sales "` is spelled with a trailing space in the source. -/
structure Metrics where
  totals : List (String × ℚ)
  efficiency : List (String × JVal)
  regions_ranked : List (JVal × ℚ)
  products_ranked : List (JVal × ℚ)
  channels_ranked : List (JVal × ℚ)
  deriving DecidableEq

/-- From `langchain_agent._compute_metrics`: sums, efficiency rates and
per-column rankings.  Errors appear in Python's line order: for each of the
four summed columns first the `KeyError` of an absent column, then the
non-numeric error of its sum, and after all four the `KeyError` of the three
`groupby` columns in dict-literal order. -/
def compute_metrics (df : List (List (String × JVal))) : Except MetricsErr Metrics :=
  let cols := columnsOf df
  if "Sales" ∉ cols then .error (.keyErr "Sales")
  else
    match colSumE df "Sales" with
    | .error e => .error e
    | .ok total_sales =>
      if "Marketing_Spend" ∉ cols then .error (.keyErr "Marketing_Spend")
      else
        match colSumE df "Marketing_Spend" with
        | .error e => .error e
        | .ok total_spend =>
          if "Qualified_Leads" ∉ cols then .error (.keyErr "Qualified_Leads")
          else
            match colSumE df "Qualified_Leads" with
            | .error e => .error e
            | .ok leads =>
              if "New_Customers" ∉ cols then .error (.keyErr "New_Customers")
              else
                match colSumE df "New_Customers" with
                | .error e => .error e
                | .ok customers =>
                  if "Region" ∉ cols then .error (.keyErr "Region")
                  else if "Product" ∉ cols then .error (.keyErr "Product")
                  else if "Channel" ∉ cols then .error (.keyErr "Channel")
                  else
                    let lead_to_customer_rate :=
                      if leads ≠ 0 then pyRound (customers / leads) 4 else 0
                    let avg_order :=
                      if customers ≠ 0 then pyRound (total_sales / customers) 2 else 0
                    let spend_efficiency : JVal :=
                      if total_spend ≠ 0 then .num (pyRound (total_sales / total_spend) 2)
                      else .infty
                    .ok
                      { totals :=
                          [("sales ", total_sales),
                           ("marketing_spend", total_spend),
                           ("qualified_leads", leads),
                           ("new_customers", customers)]
                        efficiency :=
                          [("lead_to_customer_rate", .num lead_to_customer_rate),
                           ("revenue_per_customer", .num avg_order),
                           ("revenue_per_dollar", spend_efficiency)]
                        regions_ranked := rankSums df "Region" "Sales"
                        products_ranked := rankSums df "Product" "Sales"
                        channels_ranked := rankSums df "Channel" "Sales" }

/-- String key under which a ranked-group value is serialized; the grouped
values in scope are all strings. -/
def jkeyStr : JVal → String
  | .str s => s
  | _ => ""

/-- The metrics mapping as the structured-data value embedded in the Reader's
response message. -/
def metricsToJVal (m : Metrics) : JVal :=
  .obj
    [("totals", .obj (m.totals.map fun p => (p.1, JVal.num p.2))),
     ("efficiency", .obj m.efficiency),
     ("regions_ranked", .obj (m.regions_ranked.map fun p => (jkeyStr p.1, JVal.num p.2))),
     ("products_ranked", .obj (m.products_ranked.map fun p => (jkeyStr p.1, JVal.num p.2))),
     ("channels_ranked", .obj (m.channels_ranked.map fun p => (jkeyStr p.1, JVal.num p.2)))]

/-- From `langchain_agent.run_langchain_reader`, dataframe branch: compute
the metrics, optionally load the CSV at `csv_path` for the prompt (the
external `CSVLoader`, modelled by `csv_loader`, whose loaded text feeds only
the out-of-scope LLM prompt), and wrap summary text plus
`schema`/`records`/`metrics` into an agent response message.  The LLM call is
the external collaborator producing `summary_text`; the fresh response id is
`response_id`.  The source re-serializes records with `to_dict(orient="records")`,
which equals the input records whenever each record carries each column (pandas
`NaN` back-fill for heterogeneous records is not modelled; no claim in scope
reads the records field's contents). -/
def run_langchain_reader (response_id summary_text : String)
    (df : List (List (String × JVal)))
    (csv_path : Option JVal)
    (csv_loader : JVal → Except String String) : Except String AMessage :=
  match compute_metrics df with
  | .error (.keyErr c) => .error ("KeyError: " ++ c)
  | .error (.numErr c) => .error ("TypeError: non-numeric value summing column " ++ c)
  | .ok metrics =>
    let build : AMessage :=
      create_agent_message response_id summary_text
        (some
          [("schema", .arr ((columnsOf df).map JVal.str)),
           ("records", .arr (df.map JVal.obj)),
           ("metrics", metricsToJVal metrics)])
    match csv_path with
    | some p =>
      match csv_loader p with
      | .ok _ => .ok build
      | .error e => .error e
    | none => .ok build

/-- A handler failure: an explicit `ServerError` (bad request) or any other
exception escaping the unit of work (pandas `KeyError`, file loading, ...). -/
inductive HandlerErr where
  | badRequest (e : ServerErr)
  | upstream (msg : String)
  deriving DecidableEq

/-- Interpret a payload `records` value as the list of dicts handed to
`pd.DataFrame`; pandas behaviour on non-dict rows is external and out of the
claims' scope, so those shapes are reported as a pandas upstream failure. -/
def asRecords : List JVal → Option (List (List (String × JVal)))
  | [] => some []
  | .obj r :: vs => (asRecords vs).map (r :: ·)
  | _ => none

/-- From `a2a_servers.ReaderRequestHandler.on_message_send`: build the
dataframe from `records`, else from `csv_text` (external `pd.read_csv`,
modelled by `parse_csv`), else require `dataset_path`; then run the reader
work function. -/
def reader_on_message_send
    (parse_csv : String → List (List (String × JVal)))
    (load_dataset : JVal → Except String (List (List (String × JVal))))
    (csv_loader : JVal → Except String String)
    (response_id summary_text default_model : String)
    (message : AMessage) : Except HandlerErr AMessage :=
  let payload := (get_data_part message).getD []
  let dataset_path := jget payload "dataset_path"
  let csv_text := jget payload "csv_text"
  let records := jget payload "records"
  if truthyOpt records then
    match records with
    | some (.arr vs) =>
      match asRecords vs with
      | some df =>
        match run_langchain_reader response_id summary_text df dataset_path csv_loader with
        | .ok m => .ok m
        | .error e => .error (.upstream e)
      | none => .error (.upstream "pandas.DataFrame")
    | _ => .error (.upstream "pandas.DataFrame")
  else if truthyOpt csv_text then
    match csv_text with
    | some (.str s) =>
      match run_langchain_reader response_id summary_text (parse_csv s) dataset_path csv_loader with
      | .ok m => .ok m
      | .error e => .error (.upstream e)
    | _ => .error (.upstream "io.StringIO")
  else if !truthyOpt dataset_path then
    .error (.badRequest (.invalidParams "Reader agent expects 'dataset_path', 'csv_text', or 'records'."))
  else
    match dataset_path with
    | some p =>
      match load_dataset p with
      | .ok df =>
        match run_langchain_reader response_id summary_text df dataset_path csv_loader with
        | .ok m => .ok m
        | .error e => .error (.upstream e)
      | .error e => .error (.upstream e)
    | none => .error (.upstream "pathlib")

/-- Python `str.lower()` on ASCII strings, as used for the chart file stub. -/
def pyLower (s : String) : String :=
  String.mk (s.data.map Char.toLower)

/-- Python `repr` of a list of strings, as interpolated into the
`render_sales_chart` error messages. -/
def pyStrList (cols : List String) : String :=
  "[" ++ String.intercalate ", " (cols.map fun c => "'" ++ c ++ "'") ++ "]"

/-- From `autogen_agent.run_autogen_visualizer.render_sales_chart`: validate
the metric and grouping columns and return the chart descriptor; the actual
Plotly figure rendering and the JSON file write are external I/O, and only
the returned descriptor mapping flows into the response payload. -/
def render_sales_chart (cols : List String) (artifacts_dir : String)
    (metric group_by chart_type : String) (top_n : ℤ) :
    Except String (List (String × JVal)) :=
  if metric ∉ cols then
    .error ("Unknown metric '" ++ metric ++ "'. Available columns: " ++ pyStrList cols)
  else if group_by ∉ cols then
    .error ("Cannot group by '" ++ group_by ++ "'. Choose from " ++ pyStrList cols)
  else
    .ok
      [("figure_path",
        .str (artifacts_dir ++ ("/" ++ pyLower metric ++ "_by_" ++ pyLower group_by ++ ".json"))),
       ("metric", .str metric),
       ("group_by", .str group_by),
       ("chart_type", .str chart_type),
       ("top_n", .num top_n)]

/-- The number of distinct values of a column, NaN (missing) counted once:
`len(df[c].unique())`. -/
def countDistinct (df : List (List (String × JVal))) (c : String) : ℕ :=
  (df.foldl (fun acc r => if jget r c ∈ acc then acc else acc ++ [jget r c]) []).length

/-- From `autogen_agent.run_autogen_visualizer`, the default-charts fallback:
one Sales-by-Product bar chart with `top_n=5` and one Sales-by-Region bar
chart with `top_n` the number of distinct regions; selecting the Region
column for the latter raises a `KeyError` when it is absent, after the first
chart call. -/
def visualizer_default_charts (df : List (List (String × JVal))) (artifacts_dir : String) :
    Except String (List (List (String × JVal))) :=
  match render_sales_chart (columnsOf df) artifacts_dir "Sales" "Product" "bar" 5 with
  | .error e => .error e
  | .ok product_chart =>
    if "Region" ∉ columnsOf df then .error "KeyError: Region"
    else
      match
        render_sales_chart (columnsOf df) artifacts_dir "Sales" "Region" "bar"
          (countDistinct df "Region") with
      | .error e => .error e
      | .ok region_chart => .ok [product_chart, region_chart]

/-- From `autogen_agent.run_autogen_visualizer`, the duplicate-path filter:
walk the tool payloads keeping a set of figure paths already seen; drop a
payload whose truthy `figure_path` was seen, record a truthy path, and keep
every payload whose path is absent or falsy. -/
def dedupByFigurePath (seen : List JVal) : List (List (String × JVal)) → List (List (String × JVal))
  | [] => []
  | payload :: rest =>
    match jget payload "figure_path" with
    | some p =>
      if jtruthy p ∧ p ∈ seen then dedupByFigurePath seen rest
      else if jtruthy p then payload :: dedupByFigurePath (p :: seen) rest
      else payload :: dedupByFigurePath seen rest
    | none => payload :: dedupByFigurePath seen rest

/-- From `autogen_agent.run_autogen_visualizer`, everything after the
external model-driven tool loop: `tool_payloads` and `combined_text` are the
loop's extracted outputs (`raw_messages` its stringified trace); check the
API key as the source does up front, fall back to the default chart pair when
no tool payload was produced, de-duplicate by figure path, and wrap text and
structured data into the response message. -/
def run_autogen_visualizer (response_id : String) (api_key : Option String)
    (sales_records : List (List (String × JVal))) (output_dir : String)
    (tool_payloads : List (List (String × JVal))) (combined_text : String)
    (raw_messages : List String) : Except String AMessage :=
  if api_key.getD "" = "" then
    .error "OPENAI_API_KEY environment variable is required for AutoGen agent."
  else
    let with_defaults : Except String (List (List (String × JVal)) × String) :=
      if tool_payloads = [] then
        match visualizer_default_charts sales_records output_dir with
        | .error e => .error e
        | .ok defaults =>
          .ok (tool_payloads ++ defaults,
            if combined_text ≠ "" then
              combined_text ++ "\n\n(Generated default charts for Product and Region views.)"
            else "Generated default charts for Product and Region views.")
      else .ok (tool_payloads, combined_text)
    match with_defaults with
    | .error e => .error e
    | .ok (payloads, text) =>
      .ok
        (create_agent_message response_id text
          (some
            [("tool_outputs", .arr ((dedupByFigurePath [] payloads).map JVal.obj)),
             ("artifacts_directory", .str output_dir),
             ("raw_messages", .arr (raw_messages.map JVal.str))]))

/-- Does a payload carry exactly the figure path `p`?  The guard `jtruthy p`
restricts the question to Python-truthy (non-empty) path values, the only
ones the duplicate filter tracks. -/
def figMatches (p : JVal) (x : List (String × JVal)) : Bool :=
  (jget x "figure_path" == some p) && jtruthy p

/-- A character allowed in a URL scheme after the first, per Python's
`urllib.parse.scheme_chars` (ASCII letters, digits and `+-.`). -/
def isSchemeChar (c : Char) : Bool :=
  c.isAlphanum || c == '+' || c == '-' || c == '.'

/-- A character that is none of the netloc delimiters `/`, `?`, `#`. -/
def notNetlocDelim (c : Char) : Bool :=
  !(c == '/' || c == '?' || c == '#')

/-- A tab, carriage return or newline, the characters `urlsplit` removes. -/
def isUnsafeUrlChar (c : Char) : Bool :=
  c == '\t' || c == '\r' || c == '\n'

/-- Split a character list at its first colon, if any. -/
def splitFirstColon : List Char → Option (List Char × List Char)
  | [] => none
  | c :: cs =>
    if c = ':' then some ([], cs)
    else (splitFirstColon cs).map (fun p => (c :: p.1, p.2))

/-- Scheme extraction of CPython `urlsplit`: accept a scheme only when a
colon follows a non-empty prefix of scheme characters whose first character
is an ASCII letter; the accepted scheme is lower-cased, otherwise the whole
input remains in the second component. -/
def splitScheme (cs : List Char) : List Char × List Char :=
  match splitFirstColon cs with
  | some (pre, post) =>
    if pre ≠ [] ∧ (cs.head?.any Char.isAlpha) = true ∧ pre.all isSchemeChar = true then
      (pre.map Char.toLower, post)
    else ([], cs)
  | none => ([], cs)

/-- Netloc extraction of CPython `urlsplit`: a netloc is read only after
`//`, up to the first `/`, `?` or `#`. -/
def extractNetloc : List Char → List Char
  | '/' :: '/' :: tail => tail.takeWhile notNetlocDelim
  | _ => []

/-- An ASCII character (code point below 128). -/
def isAsciiChar (c : Char) : Bool :=
  c.toNat < 128

/-- The netloc validation of CPython `urlsplit`: the exact
`ValueError("Invalid IPv6 URL")` raised for a bracket without its partner,
and a conservative rendering of `_checknetloc`, which never raises on an
ASCII netloc; non-ASCII netlocs, whose NFKC check needs Unicode tables, are
routed to the error path wholesale. -/
def checkNetloc (netloc : List Char) : Except String Unit :=
  if ('[' ∈ netloc ∧ ']' ∉ netloc) ∨ (']' ∈ netloc ∧ '[' ∉ netloc) then
    .error "Invalid IPv6 URL"
  else if !netloc.all isAsciiChar then
    .error "netloc is not ASCII"
  else .ok ()

/-- The scheme-plus-netloc base of a URL: Python's
`urlunsplit((u.scheme, u.netloc, "", "", ""))` for `u = urlsplit(url)`,
restricted to what the orchestrator uses.  Mirrors CPython `urlsplit`:
remove tab/CR/LF, split off the scheme and the `//`-netloc, validate the
netloc (`checkNetloc`), and rebuild scheme and netloc; the query/fragment
splits only shape the dropped path.  An `urlsplit` `ValueError` aborts the
orchestrator run, modelled as the error path. -/
def urlsplitBase (url : String) : Except String String :=
  let parts := splitScheme (url.data.filter (fun c => !isUnsafeUrlChar c))
  let netloc := extractNetloc parts.2
  match checkNetloc netloc with
  | .error e => .error e
  | .ok _ =>
    .ok (String.mk
      ((if parts.1 ≠ [] then parts.1 ++ [':'] else []) ++
        (if netloc ≠ [] then '/' :: '/' :: netloc else [])))

/-- From `orchestrator.orchestrate_sales_insights`: normalize one endpoint
URL to scheme+netloc, falling back to the original URL when the base is
empty (`base or url`); a `ValueError` from `urlsplit` propagates and aborts
the run. -/
def normalizeEndpoint (url : String) : Except String String :=
  match urlsplitBase url with
  | .error e => .error e
  | .ok base => .ok (if base ≠ "" then base else url)

/-- One end-to-end pipeline run: the envelopes exchanged, the ordered
transcript and the conversation log, mirroring the locals and the returned
dictionary of `orchestrator.orchestrate_sales_insights._run`. -/
structure PipelineRun where
  reader_request : AMessage
  reader_message : AMessage
  analyst_request : AMessage
  analyst_message : AMessage
  visual_request : AMessage
  visual_message : AMessage
  transcript : List (String × AMessage)
  conversation_log : List (String × String × Option (List (String × JVal)))
  deriving DecidableEq

/-- From `orchestrator.orchestrate_sales_insights._run`, for a run in which
every remote exchange succeeds: the three stage exchanges are modelled by the
response functions (`_send_message` returning the remote agent's reply), the
`uuid4` request ids by `id1 id2 id3`, and the resolved filesystem paths by
the corresponding string arguments.  Requests are built and sent strictly in
order and every structured payload is threaded exactly as in the source; the
progress callback only performs output and is not modelled. -/
def runPipeline
    (dataset_path_resolved dataset_csv artifacts_dir_resolved : String)
    (reader_model analyst_model visualizer_model : String)
    (id1 id2 id3 : String)
    (reader_respond analyst_respond visualizer_respond : AMessage → AMessage) :
    PipelineRun :=
  let reader_request := create_text_message_with_data id1
    "Ingest the provided sales dataset and produce a structured summary."
    (some
      [("dataset_path", .str dataset_path_resolved),
       ("csv_text", .str dataset_csv),
       ("model", .str reader_model)])
  let reader_message := reader_respond reader_request
  let reader_text := extract_text_from_message reader_message
  let reader_payload := (get_data_part reader_message).getD []
  let analyst_request := create_text_message_with_data id2
    "Convert the reader summary into a decision-ready analysis."
    (some
      [("records", (jget reader_payload "records").getD (.arr [])),
       ("summary_text", .str reader_text),
       ("metrics", (jget reader_payload "metrics").getD (.obj [])),
       ("model", .str analyst_model)])
  let analyst_message := analyst_respond analyst_request
  let analyst_text := extract_text_from_message analyst_message
  let visual_request := create_text_message_with_data id3
    "Generate charts and advanced analytics for the executive summary."
    (some
      [("records", (jget reader_payload "records").getD (.arr [])),
       ("analysis_text", .str analyst_text),
       ("artifacts_dir", .str artifacts_dir_resolved),
       ("model", .str visualizer_model)])
  let visual_message := visualizer_respond visual_request
  let transcript :=
    [("coordinator", reader_request),
     ("LangChain Reader", reader_message),
     ("CrewAI Analyst", analyst_message),
     ("AutoGen Visualizer", visual_message)]
  { reader_request := reader_request
    reader_message := reader_message
    analyst_request := analyst_request
    analyst_message := analyst_message
    visual_request := visual_request
    visual_message := visual_message
    transcript := transcript
    conversation_log :=
      transcript.map fun e => (e.1, extract_text_from_message e.2, get_data_part e.2) }

theorem roleFromWire_roleToWire (r : ARole) : roleFromWire (roleToWire r) = some r := by
  cases r <;> rfl

theorem partFromWire_partToWire (p : APart) : partFromWire (partToWire p) = some p := by
  cases p <;> rfl

theorem messageFromWire_messageToWire (m : AMessage) :
    messageFromWire (messageToWire m) = some m := by
  obtain ⟨mid, r, parts⟩ := m
  have hparts : partsFromWire (parts.map partToWire) = some parts := by
    induction parts with
    | nil => rfl
    | cons p ps ih =>
        simp [partsFromWire, partFromWire_partToWire, ih]
  simp [messageToWire, messageFromWire, jget, List.find?, roleFromWire_roleToWire, hparts]

/-- C6: an envelope built with one text part and one structured-data part
survives the wire round trip: serializing to the wire shape and parsing back
yields the same concatenated text and the same structured mapping. -/
theorem wire_round_trip (message_id content : String) (d : List (String × JVal)) (role : ARole) :
    ∃ m' : AMessage,
      messageFromWire (messageToWire (create_text_message_with_data message_id content (some d) role)) = some m' ∧
      extract_text_from_message m' = content ∧
      get_data_part m' = some d := by
  refine ⟨create_text_message_with_data message_id content (some d) role,
    messageFromWire_messageToWire _, ?_, ?_⟩
  · rfl
  · simp [create_text_message_with_data, get_data_part]

/-- C5: every RPC method outside single-shot message send fails with an
explicit unsupported-method error whose message contains that method's name,
and in particular task cancellation fails naming `tasks/cancel`. -/
theorem unsupported_methods_fail (m : RpcMethod) :
    simpleHandlerDispatch m = .error (.invalidParams ("Method '" ++ methodName m ++ "' not supported.")) ∧
    (methodName m).toList <:+: ("Method '" ++ methodName m ++ "' not supported.").toList ∧
    simpleHandlerDispatch .cancelTask = .error (.invalidParams "Method 'tasks/cancel' not supported.") := by
  refine ⟨?_, ?_, rfl⟩
  · cases m <;> rfl
  · cases m <;> exact ⟨"Method '".toList, "' not supported.".toList, by decide⟩

/-- C4 counterexample: a payload whose `records` is the number 5 (so the
payload is missing `summary_text` and `metrics`) makes the handler fail
with the list-type error, a message that does not name the missing key
`summary_text`; so the error does not name the missing keys as the claim
states. -/
theorem analyst_missing_keys_counterexample :
    analyst_on_message_send "gpt-4o-mini"
        (create_text_message_with_data "m1" "analyze" (some [("records", .num 5)])) =
      .error (.invalidParams "Analyst agent expected 'records' to be a list of dictionaries.") ∧
    ¬ ("summary_text".toList <:+:
        "Analyst agent expected 'records' to be a list of dictionaries.".toList) := by
  constructor
  · rfl
  · decide

/-- C4 amended: for every Analyst request whose structured payload is missing
any of `records`, `summary_text`, `metrics` (or whose `records` is an empty
list), provided `records` is absent or is a list, the handler fails with the
bad-request error naming all three required keys (hence the missing ones) and
never invokes the analysis work function. -/
theorem analyst_missing_keys_rejected (default_model : String) (message : AMessage)
    (hmiss :
      jget ((get_data_part message).getD []) "records" = none ∨
      jget ((get_data_part message).getD []) "records" = some (.arr []) ∨
      jget ((get_data_part message).getD []) "summary_text" = none ∨
      jget ((get_data_part message).getD []) "metrics" = none)
    (hlist :
      jget ((get_data_part message).getD []) "records" = none ∨
      optIsList (jget ((get_data_part message).getD []) "records") = true) :
    analyst_on_message_send default_model message =
      .error (.invalidParams "Analyst agent expects 'records', 'summary_text', and 'metrics'.") := by
  unfold analyst_on_message_send
  cases hrec : jget ((get_data_part message).getD []) "records" with
  | none =>
      simp only [hrec]
      cases jget ((get_data_part message).getD []) "summary_text" <;>
        cases jget ((get_data_part message).getD []) "metrics" <;> rfl
  | some r =>
      rcases hlist with hl | hl
      · rw [hrec] at hl; cases hl
      · rw [hrec] at hl
        obtain ⟨xs, rfl⟩ : ∃ xs, r = .arr xs := by
          cases r <;> simp [optIsList] at hl ⊢
        simp only [hrec, Option.isSome_some, optIsList, Bool.not_true, Bool.and_false,
          Bool.false_eq_true, if_false]
        rcases hmiss with h | h | h | h
        · rw [hrec] at h; cases h
        · rw [hrec] at h
          obtain rfl : xs = [] := by
            simpa using h
          cases jget ((get_data_part message).getD []) "summary_text" <;>
            cases jget ((get_data_part message).getD []) "metrics" <;>
              simp [jtruthy]
        · rw [h]
        · rw [h]
          cases jget ((get_data_part message).getD []) "summary_text" <;> rfl

/-- C4 witness: a concrete Analyst request carrying non-empty `records` and
`summary_text` but no `metrics` is rejected with the required-keys error. -/
theorem analyst_missing_keys_rejected_witness :
    analyst_on_message_send "gpt-4o-mini"
        (create_text_message_with_data "m2" "analyze"
          (some [("records", .arr [.obj [("Sales", .num 10)]]),
                 ("summary_text", .str "summary")])) =
      .error (.invalidParams "Analyst agent expects 'records', 'summary_text', and 'metrics'.") :=
  analyst_missing_keys_rejected "gpt-4o-mini" _ (by decide) (by decide)

theorem asRecords_map_obj (rs : List (List (String × JVal))) :
    asRecords (rs.map JVal.obj) = some rs := by
  induction rs with
  | nil => rfl
  | cons r rest ih => simp [asRecords, ih]

theorem foldl_add_shift (g : List (String × JVal) → ℚ) (l : List (List (String × JVal))) :
    ∀ a : ℚ, l.foldl (fun acc x => acc + g x) a = a + l.foldl (fun acc x => acc + g x) 0 := by
  induction l with
  | nil => intro a; simp
  | cons x xs ih =>
    intro a
    simp only [List.foldl_cons]
    rw [ih (a + g x), ih (0 + g x)]
    ring

theorem colSum_cons (r : List (String × JVal)) (rest : List (List (String × JVal)))
    (c : String) :
    colSum (r :: rest) c = numOrZero (jget r c) + colSum rest c := by
  unfold colSum
  simp only [List.foldl_cons]
  rw [foldl_add_shift (fun x => numOrZero (jget x c)) rest (0 + numOrZero (jget r c)),
    zero_add]

theorem colSumE_ok (df : List (List (String × JVal))) (c : String)
    (h : ∀ r ∈ df, Option.all isNumCell (jget r c) = true) :
    colSumE df c = .ok (colSum df c) := by
  induction df with
  | nil => rfl
  | cons r rest ih =>
    have hr := h r (List.mem_cons_self r rest)
    have hcell : numCell c (jget r c) = .ok (numOrZero (jget r c)) := by
      cases hj : jget r c with
      | none => rfl
      | some v =>
        rw [hj] at hr
        have hv : isNumCell v = true := by simpa [Option.all] using hr
        cases v <;> simp [isNumCell] at hv <;> rfl
    rw [colSum_cons]
    simp [colSumE, hcell, ih (fun x hx => h x (List.mem_cons_of_mem r hx))]

/-- C1 counterexample: a Reader request whose payload carries the non-empty
records list `[ {Region: North} ]` does not get a metrics response: the
metrics computation fails with a missing-key error on the absent `Sales`
column, so the handler errors instead of returning a response. -/
theorem reader_metrics_counterexample :
    reader_on_message_send (fun _ => []) (fun _ => .error "FileNotFoundError")
        (fun _ => .ok "") "r1" "summary" "gpt-4o-mini"
        (create_text_message_with_data "m3" "ingest"
          (some [("records", .arr [.obj [("Region", .str "North")]])])) =
      .error (.upstream "KeyError: Sales") := by
  rfl

/-- C1 amended: for every Reader request whose structured payload carries a
non-empty `records` list of mappings that (jointly) cover the columns
`Sales`, `Marketing_Spend`, `Qualified_Leads`, `New_Customers`, `Region`,
`Product` and `Channel`, whose present cells in the four summed columns are
numeric (a non-numeric cell makes the pandas sum or its `float()` conversion
raise), and carries no `dataset_path` (whose presence would additionally
make the prompt-building CSV load touch the server filesystem), the handler
returns a response whose structured payload holds a `metrics` mapping
computed without any missing-key error and a `schema` list equal to the
records' field names in first-seen order. -/
theorem reader_records_schema_metrics
    (parse_csv : String → List (List (String × JVal)))
    (load_dataset : JVal → Except String (List (List (String × JVal))))
    (csv_loader : JVal → Except String String)
    (response_id summary_text default_model : String)
    (message : AMessage) (rs : List (List (String × JVal)))
    (hrec : jget ((get_data_part message).getD []) "records" = some (.arr (rs.map JVal.obj)))
    (hne : rs ≠ [])
    (hpath : jget ((get_data_part message).getD []) "dataset_path" = none)
    (hcols : "Sales" ∈ columnsOf rs ∧ "Marketing_Spend" ∈ columnsOf rs ∧
      "Qualified_Leads" ∈ columnsOf rs ∧ "New_Customers" ∈ columnsOf rs ∧
      "Region" ∈ columnsOf rs ∧ "Product" ∈ columnsOf rs ∧ "Channel" ∈ columnsOf rs)
    (hnum : ∀ r ∈ rs,
      ∀ c ∈ (["Sales", "Marketing_Spend", "Qualified_Leads", "New_Customers"] : List String),
        Option.all isNumCell (jget r c) = true) :
    ∃ m, compute_metrics rs = .ok m ∧
      reader_on_message_send parse_csv load_dataset csv_loader
          response_id summary_text default_model message =
        .ok (create_agent_message response_id summary_text
          (some
            [("schema", .arr ((columnsOf rs).map JVal.str)),
             ("records", .arr (rs.map JVal.obj)),
             ("metrics", metricsToJVal m)])) := by
  obtain ⟨h1, h2, h3, h4, h5, h6, h7⟩ := hcols
  have hsE := colSumE_ok rs "Sales" (fun r hr => hnum r hr "Sales" (by simp))
  have hmsE := colSumE_ok rs "Marketing_Spend" (fun r hr => hnum r hr "Marketing_Spend" (by simp))
  have hqlE := colSumE_ok rs "Qualified_Leads" (fun r hr => hnum r hr "Qualified_Leads" (by simp))
  have hncE := colSumE_ok rs "New_Customers" (fun r hr => hnum r hr "New_Customers" (by simp))
  obtain ⟨m, hm⟩ : ∃ m, compute_metrics rs = .ok m := by
    unfold compute_metrics
    simp only [h1, h2, h3, h4, h5, h6, h7, not_true_eq_false, Bool.false_eq_true, if_false,
      hsE, hmsE, hqlE, hncE]
    exact ⟨_, rfl⟩
  refine ⟨m, hm, ?_⟩
  unfold reader_on_message_send
  simp only [hrec, hpath, truthyOpt, jtruthy]
  rw [if_pos (by simpa using hne)]
  simp only [asRecords_map_obj]
  unfold run_langchain_reader
  rw [hm]

/-- C1 witness: a concrete one-record request covering all seven columns
used by the metrics computation gets a schema-and-metrics response. -/
theorem reader_records_schema_metrics_witness :
    ∃ m,
      compute_metrics
          [[("Region", .str "North"), ("Product", .str "Widget"), ("Channel", .str "Web"),
            ("Sales", .num 100), ("Marketing_Spend", .num 20),
            ("Qualified_Leads", .num 10), ("New_Customers", .num 5)]] = .ok m ∧
      reader_on_message_send (fun _ => []) (fun _ => .error "FileNotFoundError")
          (fun _ => .ok "") "r2" "dataset summary" "gpt-4o-mini"
          (create_text_message_with_data "m4" "ingest"
            (some [("records",
              .arr ([[("Region", JVal.str "North"), ("Product", JVal.str "Widget"),
                      ("Channel", JVal.str "Web"), ("Sales", JVal.num 100),
                      ("Marketing_Spend", JVal.num 20), ("Qualified_Leads", JVal.num 10),
                      ("New_Customers", JVal.num 5)]].map JVal.obj))])) =
        .ok (create_agent_message "r2" "dataset summary"
          (some
            [("schema",
              .arr ((columnsOf
                [[("Region", JVal.str "North"), ("Product", JVal.str "Widget"),
                  ("Channel", JVal.str "Web"), ("Sales", JVal.num 100),
                  ("Marketing_Spend", JVal.num 20), ("Qualified_Leads", JVal.num 10),
                  ("New_Customers", JVal.num 5)]]).map JVal.str)),
             ("records",
              .arr ([[("Region", JVal.str "North"), ("Product", JVal.str "Widget"),
                      ("Channel", JVal.str "Web"), ("Sales", JVal.num 100),
                      ("Marketing_Spend", JVal.num 20), ("Qualified_Leads", JVal.num 10),
                      ("New_Customers", JVal.num 5)]].map JVal.obj)),
             ("metrics", metricsToJVal m)])) :=
  reader_records_schema_metrics (fun _ => []) (fun _ => .error "FileNotFoundError")
    (fun _ => .ok "") "r2" "dataset summary" "gpt-4o-mini" _ _
    (by decide) (by decide) (by decide) (by decide) (by decide)

theorem compute_metrics_totals (df : List (List (String × JVal)))
    (h1 : "Sales" ∈ columnsOf df) (h2 : "Marketing_Spend" ∈ columnsOf df)
    (h3 : "Qualified_Leads" ∈ columnsOf df) (h4 : "New_Customers" ∈ columnsOf df)
    (h5 : "Region" ∈ columnsOf df) (h6 : "Product" ∈ columnsOf df)
    (h7 : "Channel" ∈ columnsOf df)
    (s ms ql nc : ℚ)
    (hs : colSumE df "Sales" = .ok s)
    (hms : colSumE df "Marketing_Spend" = .ok ms)
    (hql : colSumE df "Qualified_Leads" = .ok ql)
    (hnc : colSumE df "New_Customers" = .ok nc) :
    ∃ m, compute_metrics df = .ok m ∧
      m.totals =
        [("sales ", s),
         ("marketing_spend", ms),
         ("qualified_leads", ql),
         ("new_customers", nc)] := by
  unfold compute_metrics
  simp only [h1, h2, h3, h4, h5, h6, h7, not_true_eq_false, Bool.false_eq_true, if_false,
    hs, hms, hql, hnc]
  exact ⟨_, rfl, rfl⟩

/-- C3: on a dataset with exactly the columns `Region, Product, Sales,
Marketing_Spend, Qualified_Leads, New_Customers` the metrics computation
does not even complete — it fails with a missing-key error on the absent
`Channel` column — and when a `Channel` column is added, the totals mapping
has no entry under the key `sales`: the exact column sum (here 200) is
stored under the key `"sales "` with a trailing space. -/
theorem reader_totals_sales_key_bug :
    compute_metrics
        [[("Region", .str "North"), ("Product", .str "Widget"), ("Sales", .num 120),
          ("Marketing_Spend", .num 30), ("Qualified_Leads", .num 10), ("New_Customers", .num 4)],
         [("Region", .str "South"), ("Product", .str "Gadget"), ("Sales", .num 80),
          ("Marketing_Spend", .num 20), ("Qualified_Leads", .num 8), ("New_Customers", .num 2)]] =
      .error (.keyErr "Channel") ∧
    (∃ m,
      compute_metrics
          [[("Region", .str "North"), ("Product", .str "Widget"), ("Sales", .num 120),
            ("Marketing_Spend", .num 30), ("Qualified_Leads", .num 10), ("New_Customers", .num 4),
            ("Channel", .str "Web")],
           [("Region", .str "South"), ("Product", .str "Gadget"), ("Sales", .num 80),
            ("Marketing_Spend", .num 20), ("Qualified_Leads", .num 8), ("New_Customers", .num 2),
            ("Channel", .str "Retail")]] = .ok m ∧
      m.totals.find? (fun p => p.1 == "sales") = none ∧
      (m.totals.find? (fun p => p.1 == "sales ")).map (·.2) = some 200) ∧
    colSum
        [[("Region", .str "North"), ("Product", .str "Widget"), ("Sales", .num 120),
          ("Marketing_Spend", .num 30), ("Qualified_Leads", .num 10), ("New_Customers", .num 4),
          ("Channel", .str "Web")],
         [("Region", .str "South"), ("Product", .str "Gadget"), ("Sales", .num 80),
          ("Marketing_Spend", .num 20), ("Qualified_Leads", .num 8), ("New_Customers", .num 2),
          ("Channel", .str "Retail")]] "Sales" = 200 := by
  have hsum :
      colSum
          [[("Region", .str "North"), ("Product", .str "Widget"), ("Sales", .num 120),
            ("Marketing_Spend", .num 30), ("Qualified_Leads", .num 10), ("New_Customers", .num 4),
            ("Channel", .str "Web")],
           [("Region", .str "South"), ("Product", .str "Gadget"), ("Sales", .num 80),
            ("Marketing_Spend", .num 20), ("Qualified_Leads", .num 8), ("New_Customers", .num 2),
            ("Channel", .str "Retail")]] "Sales" = 200 := by
    have h : colSum
          [[("Region", .str "North"), ("Product", .str "Widget"), ("Sales", .num 120),
            ("Marketing_Spend", .num 30), ("Qualified_Leads", .num 10), ("New_Customers", .num 4),
            ("Channel", .str "Web")],
           [("Region", .str "South"), ("Product", .str "Gadget"), ("Sales", .num 80),
            ("Marketing_Spend", .num 20), ("Qualified_Leads", .num 8), ("New_Customers", .num 2),
            ("Channel", .str "Retail")]] "Sales" = 0 + 120 + 80 := rfl
    rw [h]
    norm_num
  have hsalesE :
      colSumE
          [[("Region", .str "North"), ("Product", .str "Widget"), ("Sales", .num 120),
            ("Marketing_Spend", .num 30), ("Qualified_Leads", .num 10), ("New_Customers", .num 4),
            ("Channel", .str "Web")],
           [("Region", .str "South"), ("Product", .str "Gadget"), ("Sales", .num 80),
            ("Marketing_Spend", .num 20), ("Qualified_Leads", .num 8), ("New_Customers", .num 2),
            ("Channel", .str "Retail")]] "Sales" = .ok 200 := by
    rw [show colSumE
          [[("Region", .str "North"), ("Product", .str "Widget"), ("Sales", .num 120),
            ("Marketing_Spend", .num 30), ("Qualified_Leads", .num 10), ("New_Customers", .num 4),
            ("Channel", .str "Web")],
           [("Region", .str "South"), ("Product", .str "Gadget"), ("Sales", .num 80),
            ("Marketing_Spend", .num 20), ("Qualified_Leads", .num 8), ("New_Customers", .num 2),
            ("Channel", .str "Retail")]] "Sales" = .ok (120 + (80 + 0)) from rfl]
    norm_num
  refine ⟨rfl, ?_, hsum⟩
  obtain ⟨m, hm, ht⟩ :=
    compute_metrics_totals
      [[("Region", .str "North"), ("Product", .str "Widget"), ("Sales", .num 120),
        ("Marketing_Spend", .num 30), ("Qualified_Leads", .num 10), ("New_Customers", .num 4),
        ("Channel", .str "Web")],
       [("Region", .str "South"), ("Product", .str "Gadget"), ("Sales", .num 80),
        ("Marketing_Spend", .num 20), ("Qualified_Leads", .num 8), ("New_Customers", .num 2),
        ("Channel", .str "Retail")]]
      (by decide) (by decide) (by decide) (by decide) (by decide) (by decide) (by decide)
      200 (30 + (20 + 0)) (10 + (8 + 0)) (4 + (2 + 0))
      hsalesE rfl rfl rfl
  exact ⟨m, hm, by simp [ht], by simp [ht]⟩

theorem append_ne_append_of_data_ne (a x y : String) (h : x.data ≠ y.data) :
    a ++ x ≠ a ++ y := by
  intro he
  apply h
  simpa [String.ext_iff, String.data_append] using he

theorem str_append_ne_empty (a x : String) (h : x.data ≠ []) : a ++ x ≠ "" := by
  intro he
  apply h
  have hd := congrArg String.data he
  simp [String.data_append] at hd
  exact hd.2

/-- C8 amended: when the model-driven tool loop yields no chart payloads at
all and the records cover the `Sales`, `Product` and `Region` columns, the
Visualizer does not fail: it responds with exactly the fixed default pair of
charts — Sales by Product and Sales by Region — as the tool outputs.  When
the records lack one of those columns, the fallback's own chart rendering
raises and the stage fails (see the counterexample). -/
theorem visualizer_default_pair
    (response_id api_key : String) (hkey : api_key ≠ "")
    (sales_records : List (List (String × JVal))) (output_dir : String)
    (combined_text : String) (raw_messages : List String)
    (hS : "Sales" ∈ columnsOf sales_records)
    (hP : "Product" ∈ columnsOf sales_records)
    (hR : "Region" ∈ columnsOf sales_records) :
    ∃ pd rd,
      render_sales_chart (columnsOf sales_records) output_dir "Sales" "Product" "bar" 5 = .ok pd ∧
      render_sales_chart (columnsOf sales_records) output_dir "Sales" "Region" "bar"
        (countDistinct sales_records "Region") = .ok rd ∧
      run_autogen_visualizer response_id (some api_key) sales_records output_dir []
          combined_text raw_messages =
        .ok (create_agent_message response_id
          (if combined_text ≠ "" then
            combined_text ++ "\n\n(Generated default charts for Product and Region views.)"
          else "Generated default charts for Product and Region views.")
          (some
            [("tool_outputs", .arr [JVal.obj pd, JVal.obj rd]),
             ("artifacts_directory", .str output_dir),
             ("raw_messages", .arr (raw_messages.map JVal.str))])) := by
  have hlow : ("/" ++ pyLower "Sales" ++ "_by_" ++ pyLower "Product" ++ ".json" : String) =
      "/sales_by_product.json" := rfl
  have hlow2 : ("/" ++ pyLower "Sales" ++ "_by_" ++ pyLower "Region" ++ ".json" : String) =
      "/sales_by_region.json" := rfl
  have hpd : render_sales_chart (columnsOf sales_records) output_dir "Sales" "Product" "bar" 5 =
      .ok
        [("figure_path", .str (output_dir ++ "/sales_by_product.json")),
         ("metric", .str "Sales"), ("group_by", .str "Product"),
         ("chart_type", .str "bar"), ("top_n", .num ((5 : ℤ) : ℚ))] := by
    rw [render_sales_chart, if_neg (not_not_intro hS), if_neg (not_not_intro hP), hlow]
  have hrd : render_sales_chart (columnsOf sales_records) output_dir "Sales" "Region" "bar"
      (countDistinct sales_records "Region") =
      .ok
        [("figure_path", .str (output_dir ++ "/sales_by_region.json")),
         ("metric", .str "Sales"), ("group_by", .str "Region"),
         ("chart_type", .str "bar"),
         ("top_n", .num (((countDistinct sales_records "Region") : ℤ) : ℚ))] := by
    rw [render_sales_chart, if_neg (not_not_intro hS), if_neg (not_not_intro hR), hlow2]
  have htr1 : jtruthy (.str (output_dir ++ "/sales_by_product.json")) = true := by
    simp only [jtruthy, ne_eq, decide_eq_true_eq]
    exact str_append_ne_empty _ _ (by decide)
  have htr2 : jtruthy (.str (output_dir ++ "/sales_by_region.json")) = true := by
    simp only [jtruthy, ne_eq, decide_eq_true_eq]
    exact str_append_ne_empty _ _ (by decide)
  have hne : output_dir ++ "/sales_by_region.json" ≠ output_dir ++ "/sales_by_product.json" :=
    append_ne_append_of_data_ne _ _ _ (by decide)
  refine ⟨_, _, hpd, hrd, ?_⟩
  rw [run_autogen_visualizer]
  rw [if_neg (by simpa using hkey)]
  simp only [visualizer_default_charts, hpd, hrd, hR, not_true_eq_false, Bool.false_eq_true,
    if_false, if_pos rfl, List.nil_append]
  simp [dedupByFigurePath, jget, List.find?, htr1, htr2, hne]

/-- C8 witness: a concrete Visualizer run with an empty tool-payload list
produces exactly the default Sales-by-Product and Sales-by-Region charts. -/
theorem visualizer_default_pair_witness :
    ∃ pd rd,
      render_sales_chart
          (columnsOf [[("Sales", JVal.num 10), ("Product", JVal.str "A"), ("Region", JVal.str "N")]])
          "artifacts/autogen" "Sales" "Product" "bar" 5 = .ok pd ∧
      render_sales_chart
          (columnsOf [[("Sales", JVal.num 10), ("Product", JVal.str "A"), ("Region", JVal.str "N")]])
          "artifacts/autogen" "Sales" "Region" "bar"
          (countDistinct [[("Sales", JVal.num 10), ("Product", JVal.str "A"), ("Region", JVal.str "N")]]
            "Region") = .ok rd ∧
      run_autogen_visualizer "v1" (some "sk-test")
          [[("Sales", JVal.num 10), ("Product", JVal.str "A"), ("Region", JVal.str "N")]]
          "artifacts/autogen" [] "" [] =
        .ok (create_agent_message "v1"
          (if ("" : String) ≠ "" then
            "" ++ "\n\n(Generated default charts for Product and Region views.)"
          else "Generated default charts for Product and Region views.")
          (some
            [("tool_outputs", .arr [JVal.obj pd, JVal.obj rd]),
             ("artifacts_directory", .str "artifacts/autogen"),
             ("raw_messages", .arr (([] : List String).map JVal.str))])) :=
  visualizer_default_pair "v1" "sk-test" (by decide) _ "artifacts/autogen" "" []
    (by decide) (by decide) (by decide)

/-- C8 counterexample: a Visualizer run whose records pass the handler's
validation (a non-empty list of mappings) but lack the `Sales` column, and
whose tool loop yields no chart payloads, does fail the stage: the
default-chart fallback's first `render_sales_chart` call raises
`ValueError("Unknown metric ...")`, so the handler errors instead of
degrading gracefully as the claim states. -/
theorem visualizer_default_missing_column_counterexample :
    run_autogen_visualizer "v2" (some "sk-test") [[("X", JVal.num 1)]] "artifacts/autogen"
        [] "analysis text" [] =
      .error "Unknown metric 'Sales'. Available columns: ['X']" := by
  rfl

theorem dedup_sublist (seen : List JVal) (l : List (List (String × JVal))) :
    (dedupByFigurePath seen l).Sublist l := by
  induction l generalizing seen with
  | nil => simp [dedupByFigurePath]
  | cons y rest ih =>
    cases hpy : jget y "figure_path" with
    | none =>
      simp only [dedupByFigurePath, hpy]
      exact (ih seen).cons₂ y
    | some qy =>
      simp only [dedupByFigurePath, hpy]
      by_cases h1 : jtruthy qy ∧ qy ∈ seen
      · rw [if_pos h1]
        exact (ih seen).cons y
      · rw [if_neg h1]
        by_cases h2 : jtruthy qy
        · rw [if_pos h2]
          exact (ih (qy :: seen)).cons₂ y
        · rw [if_neg h2]
          exact (ih seen).cons₂ y

theorem dedup_not_seen (seen : List JVal) (l : List (List (String × JVal))) :
    ∀ x ∈ dedupByFigurePath seen l, ∀ q, jget x "figure_path" = some q →
      jtruthy q = true → q ∉ seen := by
  induction l generalizing seen with
  | nil => simp [dedupByFigurePath]
  | cons y rest ih =>
    intro x hx q hq htr
    cases hpy : jget y "figure_path" with
    | none =>
      simp only [dedupByFigurePath, hpy] at hx
      rcases List.mem_cons.mp hx with rfl | hx'
      · rw [hpy] at hq
        cases hq
      · exact ih seen x hx' q hq htr
    | some qy =>
      simp only [dedupByFigurePath, hpy] at hx
      by_cases h1 : jtruthy qy ∧ qy ∈ seen
      · rw [if_pos h1] at hx
        exact ih seen x hx q hq htr
      · rw [if_neg h1] at hx
        by_cases h2 : jtruthy qy
        · rw [if_pos h2] at hx
          rcases List.mem_cons.mp hx with rfl | hx'
          · rw [hpy] at hq
            injection hq with hq'
            subst hq'
            exact fun hmem => h1 ⟨h2, hmem⟩
          · exact fun hmem =>
              (ih (qy :: seen) x hx' q hq htr) (List.mem_cons_of_mem _ hmem)
        · rw [if_neg h2] at hx
          rcases List.mem_cons.mp hx with rfl | hx'
          · rw [hpy] at hq
            injection hq with hq'
            subst hq'
            rw [htr] at h2
            exact absurd rfl h2
          · exact ih seen x hx' q hq htr

theorem dedup_pairwise (seen : List JVal) (l : List (List (String × JVal))) :
    (dedupByFigurePath seen l).Pairwise
      (fun a b => ¬ ∃ q, jget a "figure_path" = some q ∧ jtruthy q = true ∧
        jget b "figure_path" = some q) := by
  induction l generalizing seen with
  | nil => simp [dedupByFigurePath]
  | cons y rest ih =>
    cases hpy : jget y "figure_path" with
    | none =>
      simp only [dedupByFigurePath, hpy]
      refine List.Pairwise.cons ?_ (ih seen)
      intro b _ h
      obtain ⟨q, hqa, _, _⟩ := h
      rw [hpy] at hqa
      cases hqa
    | some qy =>
      simp only [dedupByFigurePath, hpy]
      by_cases h1 : jtruthy qy ∧ qy ∈ seen
      · rw [if_pos h1]
        exact ih seen
      · rw [if_neg h1]
        by_cases h2 : jtruthy qy
        · rw [if_pos h2]
          refine List.Pairwise.cons ?_ (ih (qy :: seen))
          intro b hb h
          obtain ⟨q, hqa, htr, hqb⟩ := h
          rw [hpy] at hqa
          injection hqa with hq'
          subst hq'
          exact (dedup_not_seen (qy :: seen) rest b hb qy hqb htr) (List.mem_cons_self _ _)
        · rw [if_neg h2]
          refine List.Pairwise.cons ?_ (ih seen)
          intro b _ h
          obtain ⟨q, hqa, htr, _⟩ := h
          rw [hpy] at hqa
          injection hqa with hq'
          subst hq'
          rw [htr] at h2
          exact h2 rfl

theorem dedup_find? (p : JVal) (seen : List JVal) (l : List (List (String × JVal)))
    (hp : jtruthy p = true → p ∉ seen) :
    (dedupByFigurePath seen l).find? (figMatches p) = l.find? (figMatches p) := by
  induction l generalizing seen with
  | nil => rfl
  | cons y rest ih =>
    cases hpy : jget y "figure_path" with
    | none =>
      have hfy : figMatches p y = false := by
        simp [figMatches, hpy]
      simp only [dedupByFigurePath, hpy, List.find?_cons, hfy]
      exact ih seen hp
    | some qy =>
      by_cases hfy : figMatches p y = true
      · have hqp : qy = p ∧ jtruthy p = true := by
          have := hfy
          simp only [figMatches, hpy, Bool.and_eq_true, beq_iff_eq, Option.some.injEq] at this
          exact this
        obtain ⟨rfl, htp⟩ := hqp
        have hnot : ¬ (jtruthy qy ∧ qy ∈ seen) := fun h => (hp htp) h.2
        simp only [dedupByFigurePath, hpy, if_neg hnot]
        by_cases h2 : jtruthy qy
        · rw [if_pos h2]
          simp [List.find?_cons, hfy]
        · rw [if_neg h2]
          simp [List.find?_cons, hfy]
      · have hfy' : figMatches p y = false := by
          cases h : figMatches p y
          · rfl
          · exact absurd h hfy
        simp only [dedupByFigurePath, hpy]
        by_cases h1 : jtruthy qy ∧ qy ∈ seen
        · rw [if_pos h1]
          rw [List.find?_cons_of_neg _ (by simp [hfy'])]
          exact ih seen hp
        · rw [if_neg h1]
          by_cases h2 : jtruthy qy
          · rw [if_pos h2]
            rw [List.find?_cons_of_neg _ (by simp [hfy']),
              List.find?_cons_of_neg _ (by simp [hfy'])]
            refine ih (qy :: seen) ?_
            intro htp
            have hne : p ≠ qy := by
              intro he
              subst he
              simp [figMatches, hpy, htp] at hfy'
            intro hmem
            rcases List.mem_cons.mp hmem with he | hmem'
            · exact hne he
            · exact (hp htp) hmem'
          · rw [if_neg h2]
            rw [List.find?_cons_of_neg _ (by simp [hfy']),
              List.find?_cons_of_neg _ (by simp [hfy'])]
            exact ih seen hp

/-- C9 amended: the Visualizer's duplicate filter returns an in-order
sublist of the tool payloads in which no two entries carry the same truthy
(non-empty) `figure_path` value, and for every truthy path the entry kept is
the first occurrence in the original order; entries whose `figure_path` is
absent or falsy (such as the empty string) are all kept, so duplicates among
those may remain. -/
theorem visualizer_dedup_unique (l : List (List (String × JVal))) (p : JVal) :
    (dedupByFigurePath [] l).Sublist l ∧
    (dedupByFigurePath [] l).Pairwise
      (fun a b => ¬ ∃ q, jget a "figure_path" = some q ∧ jtruthy q = true ∧
        jget b "figure_path" = some q) ∧
    (dedupByFigurePath [] l).find? (figMatches p) = l.find? (figMatches p) :=
  ⟨dedup_sublist [] l, dedup_pairwise [] l,
    dedup_find? p [] l (fun _ => List.not_mem_nil p)⟩

/-- C9 counterexample: two tool payloads that both carry the falsy figure
path `""` survive the duplicate filter, so the Visualizer response's
`tool_outputs` contains two entries with the same `figure_path` value,
contradicting the claim as stated. -/
theorem visualizer_dedup_counterexample :
    run_autogen_visualizer "v1" (some "sk-test") [[("Sales", JVal.num 1)]] "artifacts/autogen"
        [[("figure_path", JVal.str "")], [("figure_path", JVal.str "")]] "narrative" [] =
      .ok (create_agent_message "v1" "narrative"
        (some
          [("tool_outputs",
            .arr [JVal.obj [("figure_path", JVal.str "")],
                  JVal.obj [("figure_path", JVal.str "")]]),
           ("artifacts_directory", .str "artifacts/autogen"),
           ("raw_messages", .arr [])])) ∧
    (dedupByFigurePath [] [[("figure_path", JVal.str "")], [("figure_path", JVal.str "")]]).map
        (fun x => jget x "figure_path") =
      [some (JVal.str ""), some (JVal.str "")] := by
  exact ⟨rfl, rfl⟩

theorem splitFirstColon_append (s r : List Char) (h : ':' ∉ s) :
    splitFirstColon (s ++ ':' :: r) = some (s, r) := by
  induction s with
  | nil => simp [splitFirstColon]
  | cons c cs ih =>
    have hc : c ≠ ':' := fun he => h (he ▸ List.mem_cons_self c cs)
    have hcs : ':' ∉ cs := fun hm => h (List.mem_cons_of_mem c hm)
    simp [splitFirstColon, hc, ih hcs]

theorem takeWhile_append_all {p : Char → Bool} (l1 l2 : List Char)
    (h1 : ∀ c ∈ l1, p c = true)
    (h2 : l2 = [] ∨ ∃ c cs, l2 = c :: cs ∧ p c = false) :
    (l1 ++ l2).takeWhile p = l1 := by
  induction l1 with
  | nil =>
    rcases h2 with rfl | ⟨c, cs, rfl, hc⟩
    · rfl
    · simp [List.takeWhile_cons, hc]
  | cons c cs ih =>
    have hc : p c = true := h1 c (List.mem_cons_self c cs)
    simp [List.takeWhile_cons, hc, ih (fun x hx => h1 x (List.mem_cons_of_mem c hx))]

theorem isSchemeChar_kept (c : Char) (h : isSchemeChar c = true) :
    isUnsafeUrlChar c = false := by
  cases hu : isUnsafeUrlChar c
  · rfl
  · exfalso
    have hc : (c = '\t' ∨ c = '\r') ∨ c = '\n' := by
      simpa [isUnsafeUrlChar, or_assoc] using hu
    rcases hc with (rfl | rfl) | rfl <;> exact absurd h (by decide)

/-- C7: for every endpoint URL of the shape `scheme://host[path]` — a
non-empty scheme of valid scheme characters starting with an ASCII letter, a
non-empty ASCII netloc free of `/?#` (so it may still carry a port) and of
the IPv6 brackets whose unbalanced use makes `urlsplit` raise, and a path
suffix that is empty or starts with `/`, `?` or `#` — the orchestrator's
normalized base address resolves successfully to exactly `scheme://host`
with the scheme lower-cased and the path, query and fragment removed. -/
theorem normalize_endpoint_strips_path
    (scheme host path' : String)
    (hs : scheme.data ≠ [])
    (hsc : ∀ c ∈ scheme.data, isSchemeChar c = true)
    (hsa : (scheme.data.head?.any Char.isAlpha) = true)
    (hhost : host.data ≠ [])
    (hhd : ∀ c ∈ host.data, notNetlocDelim c = true)
    (hhu : ∀ c ∈ host.data, isUnsafeUrlChar c = false)
    (hpu : ∀ c ∈ path'.data, isUnsafeUrlChar c = false)
    (hpath : path'.data = [] ∨ ∃ c cs, path'.data = c :: cs ∧ notNetlocDelim c = false)
    (hbr1 : '[' ∉ host.data) (hbr2 : ']' ∉ host.data)
    (hha : ∀ c ∈ host.data, isAsciiChar c = true) :
    normalizeEndpoint (scheme ++ "://" ++ host ++ path') =
      .ok (String.mk (scheme.data.map Char.toLower) ++ "://" ++ host) := by
  obtain ⟨c0, srest, hs0⟩ : ∃ c0 srest, scheme.data = c0 :: srest := by
    cases hcd : scheme.data with
    | nil => exact absurd hcd hs
    | cons a l => exact ⟨a, l, rfl⟩
  have hdata : (scheme ++ "://" ++ host ++ path').data =
      scheme.data ++ ':' :: '/' :: '/' :: (host.data ++ path'.data) := by
    have hsep : ("://" : String).data = [':', '/', '/'] := rfl
    simp [String.data_append, hsep]
  have hfilter : (scheme ++ "://" ++ host ++ path').data.filter (fun c => !isUnsafeUrlChar c) =
      scheme.data ++ ':' :: '/' :: '/' :: (host.data ++ path'.data) := by
    rw [hdata]
    apply List.filter_eq_self.mpr
    intro a ha
    simp only [List.mem_append, List.mem_cons] at ha
    rcases ha with ha | rfl | rfl | rfl | ha
    · simp [isSchemeChar_kept a (hsc a ha)]
    · decide
    · decide
    · decide
    · rcases ha with ha | ha
      · simp [hhu a ha]
      · simp [hpu a ha]
  have hscheme_nocolon : ':' ∉ scheme.data := fun hm => absurd (hsc ':' hm) (by decide)
  have halpha : c0.isAlpha = true := by
    have htmp := hsa
    rw [hs0] at htmp
    simpa using htmp
  have hall : scheme.data.all isSchemeChar = true := List.all_eq_true.mpr hsc
  have hsplit : splitScheme (scheme.data ++ ':' :: '/' :: '/' :: (host.data ++ path'.data)) =
      (scheme.data.map Char.toLower, '/' :: '/' :: (host.data ++ path'.data)) := by
    unfold splitScheme
    rw [splitFirstColon_append _ _ hscheme_nocolon]
    rw [hs0] at hall ⊢
    simp [hall, halpha]
  have hnetloc : extractNetloc ('/' :: '/' :: (host.data ++ path'.data)) = host.data := by
    unfold extractNetloc
    exact takeWhile_append_all host.data path'.data hhd hpath
  have hchk : checkNetloc host.data = .ok () := by
    unfold checkNetloc
    rw [if_neg (by simp [hbr1, hbr2]), if_neg (by simp [List.all_eq_true.mpr hha])]
  have hbase : urlsplitBase (scheme ++ "://" ++ host ++ path') =
      .ok (String.mk (scheme.data.map Char.toLower ++ ':' :: '/' :: '/' :: host.data)) := by
    unfold urlsplitBase
    rw [hfilter]
    simp only [hsplit, hnetloc, hchk]
    have hmapne : scheme.data.map Char.toLower ≠ [] := by
      simp [hs0]
    rw [if_pos hmapne, if_pos hhost]
    congr 2
    simp [List.append_assoc]
  unfold normalizeEndpoint
  simp only [hbase]
  rw [if_pos (by simp [String.ext_iff, hs0])]
  congr 1
  apply String.ext
  simp [String.data_append]

/-- C7 witness: the documented default reader endpoint with a path suffix is
normalized to its scheme+host+port base. -/
theorem normalize_endpoint_strips_path_witness :
    normalizeEndpoint ("http" ++ "://" ++ "localhost:8001" ++ "/a2a") =
      .ok (String.mk ("http".data.map Char.toLower) ++ "://" ++ "localhost:8001") :=
  normalize_endpoint_strips_path "http" "localhost:8001" "/a2a"
    (by decide) (by decide) (by decide) (by decide) (by decide) (by decide) (by decide)
    (Or.inr ⟨'/', ['a', '2', 'a'], by decide, by decide⟩)
    (by decide) (by decide) (by decide)

/-- C2 counterexample: in a concrete successful run, the transcript has four
entries and the Analyst-stage outbound request — an exchanged envelope — is
not among them; the transcript records only the initial Reader request and
the three responses, so it does not contain every exchanged envelope. -/
theorem orchestrator_transcript_counterexample :
    (runPipeline "/data/sales.csv" "Region,Sales\nNorth,1\n" "/tmp/autogen"
        "gpt-4o-mini" "gpt-4o-mini" "gpt-4o" "m1" "m2" "m3"
        (fun _ => create_agent_message "rm" "reader summary"
          (some [("records", .arr [.obj [("Sales", .num 1)]]), ("metrics", .obj [])]))
        (fun _ => create_agent_message "am" "analysis text")
        (fun _ => create_agent_message "vm" "visual text")).transcript.length = 4 ∧
    (runPipeline "/data/sales.csv" "Region,Sales\nNorth,1\n" "/tmp/autogen"
        "gpt-4o-mini" "gpt-4o-mini" "gpt-4o" "m1" "m2" "m3"
        (fun _ => create_agent_message "rm" "reader summary"
          (some [("records", .arr [.obj [("Sales", .num 1)]]), ("metrics", .obj [])]))
        (fun _ => create_agent_message "am" "analysis text")
        (fun _ => create_agent_message "vm" "visual text")).analyst_request ∉
      ((runPipeline "/data/sales.csv" "Region,Sales\nNorth,1\n" "/tmp/autogen"
        "gpt-4o-mini" "gpt-4o-mini" "gpt-4o" "m1" "m2" "m3"
        (fun _ => create_agent_message "rm" "reader summary"
          (some [("records", .arr [.obj [("Sales", .num 1)]]), ("metrics", .obj [])]))
        (fun _ => create_agent_message "am" "analysis text")
        (fun _ => create_agent_message "vm" "visual text")).transcript.map Prod.snd) := by
  constructor
  · rfl
  · decide

/-- C2 amended: for every successful pipeline run, the transcript consists of
exactly four entries in strict pipeline order — the coordinator's initial
Reader request, then the Reader, Analyst and Visualizer responses — each
with its attributed speaker label; the Analyst and Visualizer outbound
requests are built from the prior stage's response but are not recorded in
the transcript.  Each recorded response is the remote reply to that stage's
request. -/
theorem orchestrator_transcript_order
    (dataset_path_resolved dataset_csv artifacts_dir_resolved : String)
    (reader_model analyst_model visualizer_model : String)
    (id1 id2 id3 : String)
    (reader_respond analyst_respond visualizer_respond : AMessage → AMessage) :
    (runPipeline dataset_path_resolved dataset_csv artifacts_dir_resolved
        reader_model analyst_model visualizer_model id1 id2 id3
        reader_respond analyst_respond visualizer_respond).transcript =
      [("coordinator",
        (runPipeline dataset_path_resolved dataset_csv artifacts_dir_resolved
          reader_model analyst_model visualizer_model id1 id2 id3
          reader_respond analyst_respond visualizer_respond).reader_request),
       ("LangChain Reader",
        (runPipeline dataset_path_resolved dataset_csv artifacts_dir_resolved
          reader_model analyst_model visualizer_model id1 id2 id3
          reader_respond analyst_respond visualizer_respond).reader_message),
       ("CrewAI Analyst",
        (runPipeline dataset_path_resolved dataset_csv artifacts_dir_resolved
          reader_model analyst_model visualizer_model id1 id2 id3
          reader_respond analyst_respond visualizer_respond).analyst_message),
       ("AutoGen Visualizer",
        (runPipeline dataset_path_resolved dataset_csv artifacts_dir_resolved
          reader_model analyst_model visualizer_model id1 id2 id3
          reader_respond analyst_respond visualizer_respond).visual_message)] ∧
    (runPipeline dataset_path_resolved dataset_csv artifacts_dir_resolved
        reader_model analyst_model visualizer_model id1 id2 id3
        reader_respond analyst_respond visualizer_respond).reader_message =
      reader_respond
        (runPipeline dataset_path_resolved dataset_csv artifacts_dir_resolved
          reader_model analyst_model visualizer_model id1 id2 id3
          reader_respond analyst_respond visualizer_respond).reader_request ∧
    (runPipeline dataset_path_resolved dataset_csv artifacts_dir_resolved
        reader_model analyst_model visualizer_model id1 id2 id3
        reader_respond analyst_respond visualizer_respond).analyst_message =
      analyst_respond
        (runPipeline dataset_path_resolved dataset_csv artifacts_dir_resolved
          reader_model analyst_model visualizer_model id1 id2 id3
          reader_respond analyst_respond visualizer_respond).analyst_request ∧
    (runPipeline dataset_path_resolved dataset_csv artifacts_dir_resolved
        reader_model analyst_model visualizer_model id1 id2 id3
        reader_respond analyst_respond visualizer_respond).visual_message =
      visualizer_respond
        (runPipeline dataset_path_resolved dataset_csv artifacts_dir_resolved
          reader_model analyst_model visualizer_model id1 id2 id3
          reader_respond analyst_respond visualizer_respond).visual_request :=
  ⟨rfl, rfl, rfl, rfl⟩

/-- C10: in every pipeline run, the Visualizer request's structured payload
takes its `records` value from the Reader's response payload — the same
records that were sent to the Analyst — while only `analysis_text` comes
from the Analyst's concatenated response text. -/
theorem orchestrator_visual_records_from_reader
    (dataset_path_resolved dataset_csv artifacts_dir_resolved : String)
    (reader_model analyst_model visualizer_model : String)
    (id1 id2 id3 : String)
    (reader_respond analyst_respond visualizer_respond : AMessage → AMessage) :
    get_data_part
        (runPipeline dataset_path_resolved dataset_csv artifacts_dir_resolved
          reader_model analyst_model visualizer_model id1 id2 id3
          reader_respond analyst_respond visualizer_respond).visual_request =
      some
        [("records",
          (jget ((get_data_part
            (runPipeline dataset_path_resolved dataset_csv artifacts_dir_resolved
              reader_model analyst_model visualizer_model id1 id2 id3
              reader_respond analyst_respond visualizer_respond).reader_message).getD [])
            "records").getD (.arr [])),
         ("analysis_text",
          .str (extract_text_from_message
            (runPipeline dataset_path_resolved dataset_csv artifacts_dir_resolved
              reader_model analyst_model visualizer_model id1 id2 id3
              reader_respond analyst_respond visualizer_respond).analyst_message)),
         ("artifacts_dir", .str artifacts_dir_resolved),
         ("model", .str visualizer_model)] ∧
    jget ((get_data_part
        (runPipeline dataset_path_resolved dataset_csv artifacts_dir_resolved
          reader_model analyst_model visualizer_model id1 id2 id3
          reader_respond analyst_respond visualizer_respond).analyst_request).getD [])
      "records" =
      some ((jget ((get_data_part
        (runPipeline dataset_path_resolved dataset_csv artifacts_dir_resolved
          reader_model analyst_model visualizer_model id1 id2 id3
          reader_respond analyst_respond visualizer_respond).reader_message).getD [])
        "records").getD (.arr [])) :=
  ⟨rfl, rfl⟩
